import Mathlib

/-!
Verification model for the genui-framework backend agents.

The Python dictionaries handled by the agents are modelled by the inductive
type `PyVal`; Python dict objects whose identity matters (the nested category
dictionaries of a user profile) live in an explicit heap (`PState`) addressed
by natural numbers, so that shallow copies and in-place writes are modelled
faithfully.  Numbers are modelled by rationals (exact arithmetic).
-/

namespace GenUI

/-! ## Python dicts as association lists -/

section Assoc

variable {κ α : Type} [BEq κ] [LawfulBEq κ]

/-- `d.get(k)` on an association list in insertion order. -/
def aget (d : List (κ × α)) (k : κ) : Option α :=
  (d.find? (fun p => p.1 == k)).map Prod.snd

/-- `k in d`. -/
def amem (d : List (κ × α)) (k : κ) : Bool :=
  d.any (fun p => p.1 == k)

/-- `d[k] = v`: replace the value in place keeping insertion order, or
append the new binding at the end — Python dict assignment. -/
def aset (d : List (κ × α)) (k : κ) (v : α) : List (κ × α) :=
  if amem d k then d.map (fun p => if p.1 == k then (k, v) else p)
  else d ++ [(k, v)]

end Assoc

/-! ## Python string operations

`String.splitOn` and `String.startsWith` from core do not reduce
definitionally, so the Python string operations the agents use are modelled
on the character lists directly. -/

/-- Python `s.split(".")`: split at every dot, keeping empty pieces. -/
def splitCharDot : List Char → List (List Char)
  | [] => [[]]
  | c :: rest =>
    if c = '.' then [] :: splitCharDot rest
    else
      match splitCharDot rest with
      | g :: gs => (c :: g) :: gs
      | [] => [[c]]

/-- Python `s.split(".")` on strings. -/
def pySplitDot (s : String) : List String :=
  (splitCharDot s.data).map String.mk

/-- Python `s.startswith(pre)`. -/
def pyStartsWith (s pre : String) : Bool :=
  pre.data.isPrefixOf s.data

/-- Occurrence of `needle` as a contiguous sublist. -/
def hasSubList (needle : List Char) : List Char → Bool
  | [] => needle.isEmpty
  | c :: rest => needle.isPrefixOf (c :: rest) || hasSubList needle rest

/-- Python `sub in s` on strings. -/
def pyContains (s sub : String) : Bool :=
  hasSubList sub.data s.data

/-! ## Python values -/

/-- A Python value as the agents handle them: `None`, booleans, numbers
(modelled exactly by rationals), strings, lists and (immutable snapshots of)
dicts with string keys. -/
inductive PyVal where
  | vnone : PyVal
  | vbool : Bool → PyVal
  | vnum : ℚ → PyVal
  | vstr : String → PyVal
  | vlist : List PyVal → PyVal
  | vdict : List (String × PyVal) → PyVal

/-- Entries of a Python dict with string keys, in insertion order. -/
abbrev Entries := List (String × PyVal)

/-- `d.get(k)`: the value at key `k`, if present. -/
def dget (d : Entries) (k : String) : Option PyVal :=
  aget d k

/-- `d[k] = v`. -/
def dset (d : Entries) (k : String) (v : PyVal) : Entries :=
  aset d k v

/-- `v is None`. -/
def PyVal.isNone : PyVal → Bool
  | .vnone => true
  | _ => false

/-- Python truthiness of a value. -/
def PyVal.truthy : PyVal → Bool
  | .vnone => false
  | .vbool b => b
  | .vnum q => q != 0
  | .vstr s => s != ""
  | .vlist xs => !xs.isEmpty
  | .vdict es => !es.isEmpty

/-! ## Heap model for profile dictionaries

A user profile is a Python dict mapping category names to nested category
dicts.  `user_profile.copy()` in `_merge_all_updates` and
`existing_profile.copy()` in `merge_profile_updates` are *shallow* copies:
the new top-level dict holds references to the same nested category dict
objects.  To model this, a profile's top level (`TopDict`) maps category
names to heap addresses and the category dicts themselves live in a heap. -/

/-- A top-level profile dict: category name → address of the category dict. -/
abbrev TopDict := List (String × Nat)

/-- Lookup of a category's address in a top-level dict. -/
def tget (d : TopDict) (c : String) : Option Nat :=
  aget d c

/-- `category in profile` on the top level. -/
def tmem (d : TopDict) (c : String) : Bool :=
  amem d c

/-- `profile[category] = addr` on the top level. -/
def tset (d : TopDict) (c : String) (a : Nat) : TopDict :=
  aset d c a

/-- The mutable store of category dict objects: heap and allocation counter. -/
structure PState where
  heap : List (Nat × Entries)
  next : Nat

/-- The category dict object stored at address `a` (empty when unallocated). -/
def hget (s : PState) (a : Nat) : Entries :=
  (aget s.heap a).getD []

/-- Write the category dict object at address `a`. -/
def hset (s : PState) (a : Nat) (e : Entries) : PState :=
  { s with heap := aset s.heap a e }

/-- Allocate a fresh category dict object (`profile[category] = {}`). -/
def alloc (s : PState) (e : Entries) : PState × Nat :=
  (hset { s with next := s.next + 1 } s.next e, s.next)

/-! ## Profile Agent (`src/backend/agents/profile_agent.py`) -/

/-- The `ProfileUpdate` dataclass. -/
structure ProfileUpdate where
  field : String
  value : PyVal
  confidence : ℚ
  source : String
  timestamp : String

/-- The `ProfileAnalysisResult` dataclass. -/
structure ProfileAnalysisResult where
  has_profile_info : Bool
  updates : List ProfileUpdate
  interaction_type : String
  topics : List String
  sentiment : String

/-- `existing_entry.get("confidence", 0)` on a structured record; a stored
non-numeric confidence (which would raise on comparison in Python) is outside
the modelled domain and reads as 0. -/
def entryConfidence (e : Entries) : ℚ :=
  match dget e "confidence" with
  | some (.vnum q) => q
  | _ => 0

/-- The record `{"value": ..., "confidence": ..., "updated_at": ...}` written
by `ProfileAgent.merge_profile_updates`. -/
def profileRecord (u : ProfileUpdate) : PyVal :=
  .vdict [("value", u.value), ("confidence", .vnum u.confidence),
          ("updated_at", .vstr u.timestamp)]

/-- One iteration of the loop in `ProfileAgent.merge_profile_updates`:
split the field path, skip the update unless it has exactly two parts,
ensure the category exists, then insert the record, or overwrite it only
when the new confidence is strictly higher than a structured entry's, or
overwrite a legacy (non-dict) entry unconditionally. -/
def mergeOneUpdate (su : PState × TopDict) (u : ProfileUpdate) : PState × TopDict :=
  match pySplitDot u.field with
  | [category, key] =>
    let s := su.1
    let profile := su.2
    let sp : PState × TopDict :=
      if tmem profile category then (s, profile)
      else
        let sa := alloc s []
        (sa.1, tset profile category sa.2)
    let s := sp.1
    let profile := sp.2
    let a := (tget profile category).getD 0
    let entries := hget s a
    match dget entries key with
    | none => (hset s a (dset entries key (profileRecord u)), profile)
    | some (.vdict e) =>
      if u.confidence > entryConfidence e then
        (hset s a (dset entries key (profileRecord u)), profile)
      else (s, profile)
    | some _ => (hset s a (dset entries key (profileRecord u)), profile)
  | _ => su

/-- `ProfileAgent.merge_profile_updates`: fold the update loop over a shallow
copy of the profile (the copy shares every category dict object with
`existing_profile`, hence the same addresses). -/
def merge_profile_updates (s : PState) (existing_profile : TopDict)
    (new_updates : List ProfileUpdate) : PState × TopDict :=
  new_updates.foldl mergeOneUpdate (s, existing_profile)

/-- One parsed update dict of the model's JSON output in
`ProfileAgent.analyze_message_async`: `u["field"]` and `u["value"]` are read
with subscription (an update lacking them raises, landing in the generic
`except` branch, outside this model), `u["confidence"]` with `.get`. -/
structure ParsedUpdate where
  field : String
  value : PyVal
  confidence : Option ℚ

/-- The parsed JSON output of the model in
`ProfileAgent.analyze_message_async`: `parsed.get("has_profile_info", False)`
is kept as its truthiness, the update dicts as `ParsedUpdate`s. -/
structure ParsedAnalysis where
  has_profile_info : Bool
  updates : List ParsedUpdate
  interaction_type : String
  topics : List String
  sentiment : String

/-- The post-parse step of `ProfileAgent.analyze_message_async`: filter the
parsed updates by `u.get("confidence", 0) >= 0.5`, build `ProfileUpdate`s
with `u.get("confidence", 0.5)` and the truncated message as source, and set
`has_profile_info` to the parsed flag conjoined with survival of at least one
update.  `now` stands for the `ProfileUpdate.timestamp` default factory. -/
def analyze_message_result (parsed : ParsedAnalysis) (message : String)
    (now : String) : ProfileAnalysisResult :=
  let updates := (parsed.updates.filter
      (fun u => u.confidence.getD 0 ≥ 0.5)).map
      (fun u => ProfileUpdate.mk u.field u.value (u.confidence.getD 0.5)
        (message.take 100) now)
  { has_profile_info := parsed.has_profile_info && updates.length > 0
    updates := updates
    interaction_type := parsed.interaction_type
    topics := parsed.topics
    sentiment := parsed.sentiment }

/-! ## Behave Agent (`src/backend/agents/behave_agent.py`) -/

/-- The `BehaviorInsight` dataclass. -/
structure BehaviorInsight where
  category : String
  key : String
  value : PyVal
  confidence : ℚ
  evidence : String

/-- One entry of `BehaviorAnalysisResult.profile_updates` (a plain dict in
the source, read with `update.get("field", "")`, `update.get("value")` and
`update.get("confidence", 0.5)`): `confidence` is `none` when the dict has no
`"confidence"` key. -/
structure BUpdate where
  field : String
  value : PyVal
  confidence : Option ℚ

/-- The `BehaviorAnalysisResult` dataclass. -/
structure BehaviorAnalysisResult where
  insights : List BehaviorInsight
  profile_updates : List BUpdate
  engagement_score : ℚ
  user_type : String
  session_summary : String
  recommended_ui_adjustments : List Entries

/-- `field[9:]` after `field.startswith("behavior.")` in
`AgentOrchestrator._apply_behavior_updates`. -/
def stripBehaviorTag (f : String) : String :=
  if pyStartsWith f "behavior." then f.drop 9 else f

/-- The record written into `profile["behavior"][field]` by
`AgentOrchestrator._apply_behavior_updates` (`updated_at` is `None`). -/
def behaviorRecord (value : PyVal) (confidence : ℚ) : PyVal :=
  .vdict [("value", value), ("confidence", .vnum confidence), ("updated_at", .vnone)]

/-- One iteration of the update loop in
`AgentOrchestrator._apply_behavior_updates`: writes through the address `a`
of the behavior category dict when confidence ≥ 0.5, the stripped field is
non-empty and the value is not `None`. -/
def applyOneBehaviorUpdate (a : Nat) (s : PState) (u : BUpdate) : PState :=
  let field := stripBehaviorTag u.field
  let confidence := u.confidence.getD 0.5
  if confidence ≥ 0.5 && field != "" && !u.value.isNone then
    hset s a (dset (hget s a) field (behaviorRecord u.value confidence))
  else s

/-- `AgentOrchestrator._apply_behavior_updates`: ensure the `"behavior"`
category exists, run the update loop, then store the aggregated metrics
`_engagement_score`, `_user_type` and `_last_analysis`.  The top-level dict
is mutated in place in the source; the function returns its final value. -/
def apply_behavior_updates (s : PState) (profile : TopDict)
    (behavior_result : BehaviorAnalysisResult) : PState × TopDict :=
  let sp : PState × TopDict :=
    if tmem profile "behavior" then (s, profile)
    else
      let sa := alloc s []
      (sa.1, tset profile "behavior" sa.2)
  let s := sp.1
  let profile := sp.2
  let a := (tget profile "behavior").getD 0
  let s := behavior_result.profile_updates.foldl (applyOneBehaviorUpdate a) s
  let s := hset s a (dset (hget s a) "_engagement_score"
      (.vnum behavior_result.engagement_score))
  let s := hset s a (dset (hget s a) "_user_type"
      (.vstr behavior_result.user_type))
  let s := hset s a (dset (hget s a) "_last_analysis"
      (.vstr behavior_result.session_summary))
  (s, profile)

/-- `BehaveAgent.quick_analyze` output (the returned dict, structured). -/
structure QuickAnalysis where
  engagement_score : ℚ
  user_type : String
  attention_pattern : String
  duration_seconds : ℚ
  click_count : ℚ
  scroll_depth : ℚ
  pages_visited : ℚ

/-- `data.get(k, 0)` as a number; non-numeric entries (which would raise on
the arithmetic below in Python) are outside the modelled domain. -/
def numGet (d : Entries) (k : String) : ℚ :=
  match dget d k with
  | some (.vnum q) => q
  | _ => 0

/-- `BehaveAgent.quick_analyze` on non-empty behavior data: engagement is the
sum of five 0.2 increments capped at 1.0; user type and attention pattern
follow the if/elif cascades of the source.  (The empty-data early return
`{"engagement_score": 0.5, "user_type": "casual"}` is not modelled here; the
claims evaluate it on non-empty data only.) -/
def quick_analyze (behavior_data : Entries) : QuickAnalysis :=
  let duration := numGet behavior_data "duration" / 1000
  let clicks := numGet behavior_data "clickCount"
  let scroll_depth := numGet behavior_data "maxScrollDepth"
  let pages := numGet behavior_data "pagesVisited"
  let engagement : ℚ :=
    (if duration > 30 then 0.2 else 0) + (if duration > 120 then 0.2 else 0)
    + (if clicks > 5 then 0.2 else 0) + (if scroll_depth > 50 then 0.2 else 0)
    + (if pages > 2 then 0.2 else 0)
  let user_type :=
    if pages > 5 && clicks > 10 then "explorer"
    else if scroll_depth > 80 && duration > 60 then "deep_reader"
    else if clicks > 15 && duration < 60 then "scanner"
    else if pages ≤ 2 && scroll_depth > 50 then "focused"
    else "casual"
  let heatmap := dget behavior_data "heatmapZones"
  let attention_pattern :=
    match heatmap with
    | some (.vlist (z :: _)) =>
      let top_zone := match z with
        | .vdict e => match dget e "zone" with
          | some (.vstr s) => s
          | _ => ""
        | _ => ""
      if pyContains top_zone "top" then "top-focused"
      else if pyContains top_zone "middle" then "center-focused"
      else if pyContains top_zone "bottom" then "bottom-focused"
      else "balanced"
    | _ => "balanced"
  { engagement_score := min engagement 1
    user_type := user_type
    attention_pattern := attention_pattern
    duration_seconds := duration
    click_count := clicks
    scroll_depth := scroll_depth
    pages_visited := pages }

/-! ## Agent Orchestrator (`src/backend/agents/orchestrator.py`) -/

/-- Truthiness of `behavior_result and len(behavior_result.profile_updates) > 0`. -/
def behHasUpdates : Option BehaviorAnalysisResult → Bool
  | some b => !b.profile_updates.isEmpty
  | none => false

/-- `AgentOrchestrator._merge_all_updates`: `None` for a missing profile or
when neither agent produced updates; otherwise merge into a shallow
(top-level) copy of the profile.  The copy shares every nested category dict
object — the same heap addresses — with the caller's original. -/
def merge_all_updates (s : PState) (user_profile : Option TopDict)
    (profile_result : ProfileAnalysisResult)
    (behavior_result : Option BehaviorAnalysisResult) :
    PState × Option TopDict :=
  match user_profile with
  | none => (s, none)
  | some up =>
    let has_updates := profile_result.has_profile_info || behHasUpdates behavior_result
    if !has_updates then (s, none)
    else
      let updated_profile := up
      let sp : PState × TopDict :=
        if profile_result.has_profile_info then
          merge_profile_updates s updated_profile profile_result.updates
        else (s, updated_profile)
      let sp2 : PState × TopDict :=
        match behavior_result with
        | some br =>
          if !br.profile_updates.isEmpty then apply_behavior_updates sp.1 sp.2 br
          else sp
        | none => sp
      (sp2.1, some sp2.2)

/-- The three analyzer calls, abstracted as pure oracles over their exact
source arguments; `R` is the response agent's result type. -/
structure Analyzers (R : Type) where
  process_query : String → Option TopDict → Option (List Entries) → R
  analyze_message : String → Option (List Entries) → ProfileAnalysisResult
  analyze_behavior : Entries → Option TopDict → BehaviorAnalysisResult

/-- The `OrchestratorResult` dataclass. -/
structure OrchestratorResult (R : Type) where
  response : R
  profile_analysis : ProfileAnalysisResult
  behavior_analysis : Option BehaviorAnalysisResult
  updated_profile : Option TopDict

/-- `if behavior_data:` on an `Optional[Dict]`. -/
def optDictTruthy : Option Entries → Bool
  | some d => !d.isEmpty
  | none => false

/-- `AgentOrchestrator._process_parallel_async`: create the three coroutines,
gather them (the behavior analyzer only when `behavior_data` is truthy), then
merge all profile updates. -/
def process_parallel {R : Type} (ag : Analyzers R) (s : PState) (query : String)
    (user_profile : Option TopDict) (conversation_history : Option (List Entries))
    (behavior_data : Option Entries) : PState × OrchestratorResult R :=
  let response_task := ag.process_query query user_profile conversation_history
  let profile_task := ag.analyze_message query conversation_history
  let gathered : R × ProfileAnalysisResult × Option BehaviorAnalysisResult :=
    if optDictTruthy behavior_data then
      (response_task, profile_task,
        some (ag.analyze_behavior (behavior_data.getD []) user_profile))
    else
      (response_task, profile_task, none)
  let merged := merge_all_updates s user_profile gathered.2.1 gathered.2.2
  (merged.1,
    { response := gathered.1
      profile_analysis := gathered.2.1
      behavior_analysis := gathered.2.2
      updated_profile := merged.2 })

/-- `AgentOrchestrator._process_sequential_async`: the same analyzer calls one
at a time — response, then profile, then behavior when `behavior_data` is
truthy — followed by the same merge. -/
def process_sequential {R : Type} (ag : Analyzers R) (s : PState) (query : String)
    (user_profile : Option TopDict) (conversation_history : Option (List Entries))
    (behavior_data : Option Entries) : PState × OrchestratorResult R :=
  let response_result := ag.process_query query user_profile conversation_history
  let profile_result := ag.analyze_message query conversation_history
  let behavior_result : Option BehaviorAnalysisResult :=
    if optDictTruthy behavior_data then
      some (ag.analyze_behavior (behavior_data.getD []) user_profile)
    else none
  let merged := merge_all_updates s user_profile profile_result behavior_result
  (merged.1,
    { response := response_result
      profile_analysis := profile_result
      behavior_analysis := behavior_result
      updated_profile := merged.2 })

/-- One iteration of the behavior-update loop in
`OrchestratorResult.to_frontend_response`: dicts whose field does not already
start with `"behavior."` get the prefixed name written into them — in the
source by an in-place write to the very dict held in
`behavior_analysis.profile_updates`. -/
def prefixOneBehaviorUpdate (u : BUpdate) : BUpdate :=
  if pyStartsWith u.field "behavior." then u
  else { u with field := "behavior." ++ u.field }

/-- The update-list portion of `OrchestratorResult.to_frontend_response`:
`all_updates` as sent to the frontend (profile-agent updates first, then the
behavior updates), the `should_update` flag, and the value of the stored
`behavior_analysis.profile_updates` list *after* the call (its dicts are
mutated in place by the loop). -/
structure FrontendUpdatesResult where
  all_updates : List (ProfileUpdate ⊕ BUpdate)
  should_update : Bool
  behavior_updates_after : Option (List BUpdate)

/-- `OrchestratorResult.to_frontend_response`, restricted to its effect on
the update dicts (the rest of the response copies scalar fields). -/
def to_frontend_response (profile_analysis : ProfileAnalysisResult)
    (behavior_analysis : Option BehaviorAnalysisResult) : FrontendUpdatesResult :=
  let all0 : List (ProfileUpdate ⊕ BUpdate) := profile_analysis.updates.map Sum.inl
  match behavior_analysis with
  | some ba =>
    let looped : List BUpdate × List (ProfileUpdate ⊕ BUpdate) :=
      ba.profile_updates.foldl
        (fun acc u =>
          let u2 := prefixOneBehaviorUpdate u
          (acc.1 ++ [u2], acc.2 ++ [Sum.inr u2]))
        ([], all0)
    { all_updates := looped.2
      should_update := profile_analysis.has_profile_info || !ba.profile_updates.isEmpty
      behavior_updates_after := some looped.1 }
  | none =>
    { all_updates := all0
      should_update := profile_analysis.has_profile_info
      behavior_updates_after := none }

/-! ## Zone Agent (`src/backend/agents/zone_agent.py`) -/

/-- The `ZoneRenderResult` dataclass. -/
structure ZoneRenderResult where
  components : List PyVal
  pinned_content_included : List PyVal
  personalization_applied : Bool
  confidence : ℚ
  reasoning : String
  profile_factors_used : List PyVal

/-- Python `a or b`. -/
def pyOr (a b : PyVal) : PyVal :=
  if a.truthy then a else b

/-- `item.get(k)`. -/
def itemGet (item : Entries) (k : String) : PyVal :=
  (dget item k).getD .vnone

/-- `item.get(k, dflt)`. -/
def itemGetD (item : Entries) (k : String) (dflt : PyVal) : PyVal :=
  (dget item k).getD dflt

/-- The card built for a pinned item in `ZoneAgent._fallback_render`. -/
def fallbackCard (item : Entries) : PyVal :=
  .vdict [("title", itemGetD item "title" (.vstr "Untitled")),
          ("description", itemGetD item "description" (.vstr "")),
          ("link", itemGet item "url")]

/-- `item.get("url") or item.get("id") or item.get("title")` in
`ZoneAgent._fallback_render`. -/
def fallbackIdentifier (item : Entries) : PyVal :=
  pyOr (itemGet item "url") (pyOr (itemGet item "id") (itemGet item "title"))

/-- `request.preferred_component_type or "bento"`. -/
def effectiveComponentType (preferred_component_type : Option String) : String :=
  match preferred_component_type with
  | some t => if t = "" then "bento" else t
  | none => "bento"

/-- `ZoneAgent._fallback_render`: one card and one identifier per pinned
item; a single bento component only when the effective component type is
`"bento"` and there is at least one card; confidence 0.3, no
personalization, fixed reasoning string. -/
def fallback_render (pinned_content : List Entries)
    (preferred_component_type : Option String) : ZoneRenderResult :=
  let cards := pinned_content.map fallbackCard
  let pinned_ids := pinned_content.map fallbackIdentifier
  let component_type := effectiveComponentType preferred_component_type
  let components : List PyVal :=
    if component_type = "bento" && !cards.isEmpty then
      [.vdict [("type", .vstr "bento"),
               ("data", .vdict [("cards", .vlist cards),
                                ("columns", .vnum (min (cards.length : ℚ) 3))])]]
    else []
  { components := components
    pinned_content_included := pinned_ids
    personalization_applied := false
    confidence := 0.3
    reasoning := "Fallback render with only pinned content due to processing error"
    profile_factors_used := [] }

/-! ## Concrete instances used by the scenario theorems -/

/-- An analysis pass that found nothing (`has_profile_info = False`). -/
def c1_no_info : ProfileAnalysisResult := ⟨false, [], "question", [], "neutral"⟩

/-- A profile whose behavior category (at address 0) already holds a
high-confidence entry for `reading_speed`. -/
def c2_state : PState :=
  ⟨[(0, [("reading_speed", .vdict [("value", .vstr "slow"),
      ("confidence", .vnum 0.99), ("updated_at", .vnone)])])], 1⟩

/-- Top level of the profile for the behavior-update scenario. -/
def c2_profile : TopDict := [("behavior", 0)]

/-- A behavior update with confidence 0.9 targeting the existing key. -/
def c2_update : BUpdate := ⟨"behavior.reading_speed", .vstr "fast", some 0.9⟩

/-- A behavior result carrying `c2_update` and aggregate metrics. -/
def c2_result : BehaviorAnalysisResult :=
  ⟨[], [c2_update], 0.7, "explorer", "active session", []⟩

/-- A profile whose preference category (at address 0) holds `tone` as a
structured record with confidence 0.8. -/
def c3_state : PState :=
  ⟨[(0, [("tone", .vdict [("value", .vstr "formal"), ("confidence", .vnum 0.8),
      ("updated_at", .vstr "T0")])])], 1⟩

/-- Top level of the profile for the confidence-precedence scenario. -/
def c3_profile : TopDict := [("preference", 0)]

/-- The update `{field: "preference.tone", value: "casual", confidence: 0.6}`. -/
def c3_update : ProfileUpdate :=
  ⟨"preference.tone", .vstr "casual", 0.6, "user message", "T1"⟩

/-- A profile with an (empty) preference category dict at address 0. -/
def c4_state : PState := ⟨[(0, [])], 1⟩

/-- Top level of the caller's original profile for the mutation scenario. -/
def c4_profile : TopDict := [("preference", 0)]

/-- An analysis with one qualifying update for `preference.tone`. -/
def c4_analysis : ProfileAnalysisResult :=
  ⟨true, [⟨"preference.tone", .vstr "casual", 0.9, "query", "T"⟩],
   "statement", [], "neutral"⟩

/-- A profile analysis with no updates, for the frontend-response scenario. -/
def c6_profile_analysis : ProfileAnalysisResult :=
  ⟨false, [], "question", [], "neutral"⟩

/-- A behavior result with one stored update dict whose field `"x"` is not
yet prefixed. -/
def c6_behavior_analysis : BehaviorAnalysisResult :=
  ⟨[], [⟨"x", .vnum 1, some 0.9⟩], 0.5, "casual", "s", []⟩

/-- The pinned content `[{id: "a"}, {url: "http://x"}]`. -/
def c7_pinned : List Entries := [[("id", .vstr "a")], [("url", .vstr "http://x")]]

/-- The behavior summary
`{duration: 150000, clickCount: 8, maxScrollDepth: 85, pagesVisited: 1}`. -/
def c8_behavior_summary : Entries :=
  [("duration", .vnum 150000), ("clickCount", .vnum 8),
   ("maxScrollDepth", .vnum 85), ("pagesVisited", .vnum 1)]

/-- A behavior update dict with no `"confidence"` key. -/
def c10_update : BUpdate := ⟨"scroll_pattern", .vstr "thorough", none⟩

/-- A behavior result carrying only `c10_update`. -/
def c10_result : BehaviorAnalysisResult :=
  ⟨[], [c10_update], 0.6, "focused", "steady", []⟩

/-- An empty heap, for the default-confidence scenario. -/
def c10_state : PState := ⟨[], 0⟩

/-! ## Association-list lemmas -/

section AssocLemmas

variable {κ α : Type} [BEq κ] [LawfulBEq κ]

omit [LawfulBEq κ] in
theorem aget_none_of_amem_false {d : List (κ × α)} {k : κ}
    (h : amem d k = false) : aget d k = none := by
  induction d with
  | nil => rfl
  | cons p t ih =>
    simp only [amem, List.any_cons, Bool.or_eq_false_iff] at h
    simp only [aget, List.find?, h.1]
    exact ih h.2

omit [LawfulBEq κ] in
theorem amem_true_of_aget_some {d : List (κ × α)} {k : κ} {v : α}
    (h : aget d k = some v) : amem d k = true := by
  by_contra hc
  rw [aget_none_of_amem_false (Bool.eq_false_iff.mpr hc)] at h
  exact Option.noConfusion h

omit [LawfulBEq κ] in
theorem amem_false_of_aget_none {d : List (κ × α)} {k : κ}
    (h : aget d k = none) : amem d k = false := by
  induction d with
  | nil => rfl
  | cons p t ih =>
    simp only [aget, List.find?] at h
    cases hp : (p.1 == k) with
    | true =>
      rw [hp] at h
      exact Option.noConfusion h
    | false =>
      rw [hp] at h
      simp only [amem, List.any_cons, hp, Bool.false_or]
      exact ih h

omit [LawfulBEq κ] in
theorem find?_map_set {d : List (κ × α)} {k : κ} (v : α) (hm : amem d k = true)
    [ReflBEq κ] :
    (d.map (fun p => if p.1 == k then (k, v) else p)).find? (fun p => p.1 == k)
      = some (k, v) := by
  induction d with
  | nil => simp [amem] at hm
  | cons p t ih =>
    cases hp : (p.1 == k) with
    | true => simp [List.find?, hp]
    | false =>
      simp only [amem, List.any_cons, hp, Bool.false_or] at hm
      simp only [List.map_cons, hp, Bool.false_eq_true, if_false, List.find?]
      exact ih hm

omit [LawfulBEq κ] in
theorem find?_append_new {d : List (κ × α)} {k : κ} (v : α) (hm : amem d k = false)
    [ReflBEq κ] :
    (d ++ [(k, v)]).find? (fun p => p.1 == k) = some (k, v) := by
  induction d with
  | nil => simp [List.find?]
  | cons p t ih =>
    simp only [amem, List.any_cons, Bool.or_eq_false_iff] at hm
    simp only [List.cons_append, List.find?, hm.1]
    exact ih hm.2

theorem find?_map_set_ne (d : List (κ × α)) (k k2 : κ) (v : α)
    (hk2 : (k == k2) = false) :
    (d.map (fun p => if p.1 == k then (k, v) else p)).find? (fun p => p.1 == k2)
      = d.find? (fun p => p.1 == k2) := by
  induction d with
  | nil => rfl
  | cons p t ih =>
    cases hp : (p.1 == k) with
    | true =>
      have hp2 : (p.1 == k2) = false := by rw [eq_of_beq hp]; exact hk2
      simp only [List.map_cons, hp, if_true, List.find?, hk2, hp2]
      exact ih
    | false =>
      simp only [List.map_cons, hp, Bool.false_eq_true, if_false, List.find?]
      cases hq : (p.1 == k2) with
      | true => rfl
      | false => exact ih

omit [LawfulBEq κ] in
theorem find?_append_keep (d : List (κ × α)) (k k2 : κ) (v : α)
    (hk2 : (k == k2) = false) :
    (d ++ [(k, v)]).find? (fun p => p.1 == k2) = d.find? (fun p => p.1 == k2) := by
  induction d with
  | nil => simp [List.find?, hk2]
  | cons p t ih =>
    simp only [List.cons_append, List.find?]
    cases hq : (p.1 == k2) with
    | true => rfl
    | false => exact ih

theorem aget_aset_self (d : List (κ × α)) (k : κ) (v : α) :
    aget (aset d k v) k = some v := by
  unfold aset
  cases hm : amem d k with
  | true => simp only [if_true, aget, find?_map_set v hm, Option.map]
  | false =>
    simp only [Bool.false_eq_true, if_false, aget, find?_append_new v hm, Option.map]

theorem aget_aset_ne (d : List (κ × α)) (k k2 : κ) (v : α) (h : (k2 == k) = false) :
    aget (aset d k v) k2 = aget d k2 := by
  have hk2 : (k == k2) = false := by
    rw [beq_eq_false_iff_ne] at h ⊢
    exact fun hkk => h hkk.symm
  unfold aset
  cases hm : amem d k with
  | true => simp only [if_true, aget, find?_map_set_ne d k k2 v hk2]
  | false =>
    simp only [Bool.false_eq_true, if_false, aget, find?_append_keep d k k2 v hk2]

end AssocLemmas

/-! ## Dict, top-level and heap access lemmas -/

theorem dget_nil (k : String) : dget [] k = none := rfl

theorem dget_dset_self (d : Entries) (k : String) (v : PyVal) :
    dget (dset d k v) k = some v :=
  aget_aset_self d k v

theorem dget_dset_ne (d : Entries) (k k2 : String) (v : PyVal) (h : k2 ≠ k) :
    dget (dset d k v) k2 = dget d k2 :=
  aget_aset_ne d k k2 v (beq_eq_false_iff_ne.mpr h)

theorem hget_hset_self (s : PState) (a : Nat) (e : Entries) :
    hget (hset s a e) a = e := by
  rw [hget, hset]
  simp only [aget_aset_self, Option.getD_some]

theorem tget_tset_self (d : TopDict) (c : String) (a : Nat) :
    tget (tset d c a) c = some a :=
  aget_aset_self d c a

theorem tmem_true_of_tget_some {d : TopDict} {c : String} {a : Nat}
    (h : tget d c = some a) : tmem d c = true :=
  amem_true_of_aget_some h

/-- Writing to a category name that is absent from the top level preserves
every existing binding. -/
theorem tget_tset_fresh {p : TopDict} {c x : String} {a : Nat} (n : Nat)
    (hm : tmem p x = false) (h : tget p c = some a) :
    tget (tset p x n) c = some a := by
  have hxc : (c == x) = false := by
    rw [beq_eq_false_iff_ne]
    intro hcx
    rw [hcx, tget, aget_none_of_amem_false hm] at h
    exact Option.noConfusion h
  rw [tset, tget, aget_aset_ne _ _ _ _ hxc]
  exact h

/-! ## Top-level preservation through the merge passes -/

/-- The top-level dict returned by one merge iteration: unchanged, or extended
with a fresh binding for a category that was absent. -/
theorem mergeOneUpdate_snd (sp : PState × TopDict) (u : ProfileUpdate) :
    (mergeOneUpdate sp u).2 = sp.2
    ∨ ∃ x n, tmem sp.2 x = false ∧ (mergeOneUpdate sp u).2 = tset sp.2 x n := by
  cases hl : pySplitDot u.field with
  | nil => left; simp [mergeOneUpdate, hl]
  | cons x xs =>
    cases xs with
    | nil => left; simp [mergeOneUpdate, hl]
    | cons y ys =>
      cases ys with
      | cons z zs => left; simp [mergeOneUpdate, hl]
      | nil =>
        cases hm : tmem sp.2 x with
        | true =>
          left
          simp only [mergeOneUpdate, hl, hm, if_true]
          split
          · rfl
          · split <;> rfl
          · rfl
        | false =>
          right
          refine ⟨x, (alloc sp.1 []).2, hm, ?_⟩
          simp only [mergeOneUpdate, hl, hm, Bool.false_eq_true, if_false]
          split
          · rfl
          · split <;> rfl
          · rfl

theorem tget_mergeOneUpdate (sp : PState × TopDict) (u : ProfileUpdate)
    {c : String} {a : Nat} (h : tget sp.2 c = some a) :
    tget (mergeOneUpdate sp u).2 c = some a := by
  rcases mergeOneUpdate_snd sp u with heq | ⟨x, n, hm, heq⟩
  · rw [heq]; exact h
  · rw [heq]; exact tget_tset_fresh n hm h

theorem tget_foldl_merge (us : List ProfileUpdate) (sp : PState × TopDict)
    {c : String} {a : Nat} (h : tget sp.2 c = some a) :
    tget (us.foldl mergeOneUpdate sp).2 c = some a := by
  induction us generalizing sp with
  | nil => exact h
  | cons u t ih => exact ih _ (tget_mergeOneUpdate sp u h)

/-- The top level after the behavior pass: unchanged, or extended with a
fresh `"behavior"` binding. -/
theorem apply_behavior_updates_snd (s : PState) (p : TopDict)
    (br : BehaviorAnalysisResult) :
    (apply_behavior_updates s p br).2 = p
    ∨ (tmem p "behavior" = false
        ∧ (apply_behavior_updates s p br).2 = tset p "behavior" s.next) := by
  unfold apply_behavior_updates
  cases hm : tmem p "behavior" with
  | true => left; simp only [hm, if_true]
  | false =>
    right
    refine ⟨rfl, ?_⟩
    simp only [hm, Bool.false_eq_true, if_false, alloc]

theorem tget_apply_behavior_updates (s : PState) (p : TopDict)
    (br : BehaviorAnalysisResult) {c : String} {a : Nat}
    (h : tget p c = some a) :
    tget (apply_behavior_updates s p br).2 c = some a := by
  rcases apply_behavior_updates_snd s p br with heq | ⟨hm, heq⟩
  · rw [heq]; exact h
  · rw [heq]; exact tget_tset_fresh s.next hm h

/-! ## Behavior-update pass lemmas -/

/-- A qualifying update writes its record into the behavior category dict. -/
theorem applyOneBehaviorUpdate_pos (a : Nat) (s : PState) (u : BUpdate)
    (hc : u.confidence.getD 0.5 ≥ 0.5) (hf : stripBehaviorTag u.field ≠ "")
    (hv : u.value.isNone = false) :
    applyOneBehaviorUpdate a s u
      = hset s a (dset (hget s a) (stripBehaviorTag u.field)
          (behaviorRecord u.value (u.confidence.getD 0.5))) := by
  rw [applyOneBehaviorUpdate, if_pos]
  simp only [Bool.and_eq_true, decide_eq_true_eq, bne_iff_ne, ne_eq,
    Bool.not_eq_true']
  exact ⟨⟨hc, hf⟩, hv⟩

/-- After the behavior-update pass, the stripped field of the last update of
the loop holds that update's record (aggregate keys excepted). -/
theorem apply_behavior_updates_writes (s : PState) (p : TopDict)
    (br : BehaviorAnalysisResult) (us : List BUpdate) (u : BUpdate)
    (hus : br.profile_updates = us ++ [u])
    (hc : u.confidence.getD 0.5 ≥ 0.5)
    (hf : stripBehaviorTag u.field ≠ "")
    (hv : u.value.isNone = false)
    (h1 : stripBehaviorTag u.field ≠ "_engagement_score")
    (h2 : stripBehaviorTag u.field ≠ "_user_type")
    (h3 : stripBehaviorTag u.field ≠ "_last_analysis") :
    dget (hget (apply_behavior_updates s p br).1
          ((tget (apply_behavior_updates s p br).2 "behavior").getD 0))
        (stripBehaviorTag u.field)
      = some (behaviorRecord u.value (u.confidence.getD 0.5)) := by
  simp only [apply_behavior_updates]
  generalize (if tmem p "behavior" = true then (s, p)
      else ((alloc s []).1, tset p "behavior" (alloc s []).2)) = sp0
  generalize (tget sp0.2 "behavior").getD 0 = a0
  rw [hus, List.foldl_append, List.foldl_cons, List.foldl_nil]
  rw [applyOneBehaviorUpdate_pos a0 _ u hc hf hv]
  rw [hget_hset_self, dget_dset_ne _ _ _ _ h3,
    hget_hset_self, dget_dset_ne _ _ _ _ h2,
    hget_hset_self, dget_dset_ne _ _ _ _ h1,
    hget_hset_self, dget_dset_self]

/-- After the behavior-update pass, the three aggregate keys hold the
behavior result's engagement score, user type and session summary. -/
theorem apply_behavior_updates_aggregates (s : PState) (p : TopDict)
    (br : BehaviorAnalysisResult) :
    dget (hget (apply_behavior_updates s p br).1
          ((tget (apply_behavior_updates s p br).2 "behavior").getD 0))
        "_engagement_score" = some (.vnum br.engagement_score)
    ∧ dget (hget (apply_behavior_updates s p br).1
          ((tget (apply_behavior_updates s p br).2 "behavior").getD 0))
        "_user_type" = some (.vstr br.user_type)
    ∧ dget (hget (apply_behavior_updates s p br).1
          ((tget (apply_behavior_updates s p br).2 "behavior").getD 0))
        "_last_analysis" = some (.vstr br.session_summary) := by
  simp only [apply_behavior_updates]
  generalize (if tmem p "behavior" = true then (s, p)
      else ((alloc s []).1, tset p "behavior" (alloc s []).2)) = sp0
  generalize (tget sp0.2 "behavior").getD 0 = a0
  refine ⟨?_, ?_, ?_⟩
  · rw [hget_hset_self,
      dget_dset_ne _ _ _ _ (by decide : "_engagement_score" ≠ "_last_analysis"),
      hget_hset_self,
      dget_dset_ne _ _ _ _ (by decide : "_engagement_score" ≠ "_user_type"),
      hget_hset_self, dget_dset_self]
  · rw [hget_hset_self,
      dget_dset_ne _ _ _ _ (by decide : "_user_type" ≠ "_last_analysis"),
      hget_hset_self, dget_dset_self]
  · rw [hget_hset_self, dget_dset_self]

/-! ## Claim theorems -/

/-- C1 (amended): `_merge_all_updates` returns `None` exactly when the input
profile is `None` **or** no updates qualified (the profile analysis found no
profile info and the behavior result carries no profile updates); in
particular, for `profile = None` the result is always `None`. -/
theorem merge_all_updates_none_iff (s : PState) (up : Option TopDict)
    (pr : ProfileAnalysisResult) (br : Option BehaviorAnalysisResult) :
    (merge_all_updates s up pr br).2 = none
      ↔ (up = none
          ∨ (pr.has_profile_info = false ∧ behHasUpdates br = false)) := by
  cases up with
  | none => simp [merge_all_updates]
  | some u0 =>
    simp only [merge_all_updates]
    cases hpi : pr.has_profile_info with
    | true => simp
    | false =>
      cases hb : behHasUpdates br with
      | true => simp
      | false => simp

/-- C1 counterexample: with a profile supplied but no qualifying updates,
`_merge_all_updates` returns `None` — not the input profile — so
"`updated_profile` is `None` iff no input profile was supplied" fails. -/
theorem merge_all_updates_none_despite_profile :
    (merge_all_updates ⟨[(0, [])], 1⟩ (some [("preference", 0)]) c1_no_info none).2
      = none := rfl

/-- C3: in `ProfileAgent.merge_profile_updates`, for an update whose field
splits into exactly two parts: an absent key is inserted as a record; a
structured (dict) entry is overwritten iff the new confidence is strictly
greater than the stored one (ties keep the old entry); a legacy non-dict
entry is always overwritten; an absent category is freshly created and the
record inserted. -/
theorem merge_profile_updates_precedence (s : PState) (p : TopDict)
    (u : ProfileUpdate) (c k : String) (hsplit : pySplitDot u.field = [c, k]) :
    (∀ a, tget p c = some a →
      ((dget (hget s a) k = none →
          dget (hget (merge_profile_updates s p [u]).1 a) k = some (profileRecord u))
       ∧ (∀ e, dget (hget s a) k = some (.vdict e) →
          dget (hget (merge_profile_updates s p [u]).1 a) k
            = if u.confidence > entryConfidence e then some (profileRecord u)
              else some (.vdict e))
       ∧ (∀ v, dget (hget s a) k = some v → (∀ e, v ≠ PyVal.vdict e) →
          dget (hget (merge_profile_updates s p [u]).1 a) k = some (profileRecord u))
       ∧ (merge_profile_updates s p [u]).2 = p))
    ∧ (tget p c = none →
        tget (merge_profile_updates s p [u]).2 c = some s.next
        ∧ dget (hget (merge_profile_updates s p [u]).1 s.next) k
            = some (profileRecord u)) := by
  constructor
  · intro a ha
    have hm : tmem p c = true := tmem_true_of_tget_some ha
    simp only [merge_profile_updates, List.foldl_cons, List.foldl_nil,
      mergeOneUpdate, hsplit, hm, if_true, ha, Option.getD_some]
    refine ⟨?_, ?_, ?_, ?_⟩
    · intro hnone
      simp only [hnone, hget_hset_self, dget_dset_self]
    · intro e he
      simp only [he]
      by_cases hc : u.confidence > entryConfidence e
      · simp only [if_pos hc, hget_hset_self, dget_dset_self]
      · simp only [if_neg hc, he]
    · intro v hv hnd
      cases v with
      | vdict e => exact absurd rfl (hnd e)
      | vnone => simp only [hv, hget_hset_self, dget_dset_self]
      | vbool b => simp only [hv, hget_hset_self, dget_dset_self]
      | vnum q => simp only [hv, hget_hset_self, dget_dset_self]
      | vstr t => simp only [hv, hget_hset_self, dget_dset_self]
      | vlist xs => simp only [hv, hget_hset_self, dget_dset_self]
    · cases hd : dget (hget s a) k with
      | none => rfl
      | some v =>
        cases v with
        | vdict e =>
          by_cases hc : u.confidence > entryConfidence e
          · simp only [if_pos hc]
          · simp only [if_neg hc]
        | vnone => rfl
        | vbool b => rfl
        | vnum q => rfl
        | vstr t => rfl
        | vlist xs => rfl
  · intro hnone
    have hm : tmem p c = false := amem_false_of_aget_none hnone
    simp only [merge_profile_updates, List.foldl_cons, List.foldl_nil,
      mergeOneUpdate, hsplit, hm, Bool.false_eq_true, if_false, alloc,
      tget_tset_self, Option.getD_some, hget_hset_self, dget_nil,
      dget_dset_self, and_self]

/-- C3 witness: merging `{field: "preference.tone", value: "casual",
confidence: 0.6}` into a profile whose `preference.tone` is stored with
confidence 0.8 leaves the stored record (value `"formal"`) unchanged. -/
theorem merge_profile_updates_precedence_witness :
    dget (hget (merge_profile_updates c3_state c3_profile [c3_update]).1 0) "tone"
      = some (.vdict [("value", .vstr "formal"), ("confidence", .vnum 0.8),
                      ("updated_at", .vstr "T0")]) := by
  have h := ((merge_profile_updates_precedence c3_state c3_profile c3_update
      "preference" "tone" rfl).1 0 rfl).2.1
      [("value", .vstr "formal"), ("confidence", .vnum 0.8),
       ("updated_at", .vstr "T0")] rfl
  rw [if_neg] at h
  · exact h
  · rw [show entryConfidence [("value", PyVal.vstr "formal"),
        ("confidence", PyVal.vnum 0.8), ("updated_at", PyVal.vstr "T0")]
        = 0.8 from rfl,
      show c3_update.confidence = 0.6 from rfl]
    norm_num

/-- C4 (amended): the orchestration merge copies only the top level — the
returned snapshot binds every category that existed in the caller's profile
to the *same* category dict object (same heap address), so in-place writes to
those categories are visible through the original profile. -/
theorem merge_all_updates_shares_categories (s : PState) (up : TopDict)
    (pr : ProfileAnalysisResult) (br : Option BehaviorAnalysisResult)
    (t : TopDict) (c : String) (a : Nat)
    (ht : (merge_all_updates s (some up) pr br).2 = some t)
    (hc : tget up c = some a) :
    tget t c = some a := by
  simp only [merge_all_updates] at ht
  cases hup : (pr.has_profile_info || behHasUpdates br) with
  | false =>
    rw [hup] at ht
    simp at ht
  | true =>
    rw [hup] at ht
    simp only [Bool.not_true, Bool.false_eq_true, if_false, Option.some.injEq] at ht
    subst ht
    have h1 : tget (if pr.has_profile_info = true then
        merge_profile_updates s up pr.updates else (s, up)).2 c = some a := by
      cases hpi : pr.has_profile_info with
      | true =>
        simp only [if_true]
        exact tget_foldl_merge pr.updates (s, up) hc
      | false => simpa using hc
    cases br with
    | none => exact h1
    | some b =>
      cases hbe : b.profile_updates.isEmpty with
      | true => simpa [hbe] using h1
      | false =>
        simp only [hbe, Bool.not_false, if_true]
        exact tget_apply_behavior_updates _ _ b h1

/-- C4 counterexample: after an orchestration merge, reading the caller's
original `preference` category dict (heap address 0) shows the newly written
`tone` entry — the original nested dict was mutated, so "the caller's
original profile dictionary (including its nested category dictionaries) is
unchanged" fails. -/
theorem merge_all_updates_mutates_original :
    dget (hget (merge_all_updates c4_state (some c4_profile) c4_analysis none).1 0)
        "tone"
      = some (.vdict [("value", .vstr "casual"), ("confidence", .vnum 0.9),
                      ("updated_at", .vstr "T")])
    ∧ dget (hget c4_state 0) "tone" = none
    ∧ hget (merge_all_updates c4_state (some c4_profile) c4_analysis none).1 0
        ≠ hget c4_state 0 := by
  refine ⟨rfl, rfl, ?_⟩
  intro h
  have h1 : dget
      (hget (merge_all_updates c4_state (some c4_profile) c4_analysis none).1 0)
      "tone"
      = some (.vdict [("value", .vstr "casual"), ("confidence", .vnum 0.9),
                      ("updated_at", .vstr "T")]) := rfl
  rw [h] at h1
  have h2 : dget (hget c4_state 0) "tone" = none := rfl
  exact Option.noConfusion (h2.symm.trans h1)

/-- C4 witness: in the mutation scenario the returned snapshot still binds
`preference` to the caller's category dict object at address 0. -/
theorem merge_all_updates_shares_categories_witness :
    tget c4_profile "preference" = some 0 :=
  merge_all_updates_shares_categories c4_state c4_profile c4_analysis none
    c4_profile "preference" 0 rfl rfl

/-- C2: in the behavior-update pass, a qualifying update (confidence ≥ 0.5,
non-empty stripped field, non-null value; the field not one of the aggregate
keys) that is the last update of the loop leaves
`{value, confidence, updated_at: None}` at its stripped field — written
unconditionally over any prior entry, whatever that entry's confidence —
and afterwards `_engagement_score`, `_user_type` and `_last_analysis` hold
the behavior result's engagement score, user type and session summary. -/
theorem apply_behavior_updates_unconditional (s : PState) (p : TopDict)
    (br : BehaviorAnalysisResult) (us : List BUpdate) (u : BUpdate)
    (hus : br.profile_updates = us ++ [u])
    (hc : u.confidence.getD 0.5 ≥ 0.5)
    (hf : stripBehaviorTag u.field ≠ "")
    (hv : u.value.isNone = false)
    (h1 : stripBehaviorTag u.field ≠ "_engagement_score")
    (h2 : stripBehaviorTag u.field ≠ "_user_type")
    (h3 : stripBehaviorTag u.field ≠ "_last_analysis") :
    dget (hget (apply_behavior_updates s p br).1
          ((tget (apply_behavior_updates s p br).2 "behavior").getD 0))
        (stripBehaviorTag u.field)
      = some (behaviorRecord u.value (u.confidence.getD 0.5))
    ∧ dget (hget (apply_behavior_updates s p br).1
          ((tget (apply_behavior_updates s p br).2 "behavior").getD 0))
        "_engagement_score" = some (.vnum br.engagement_score)
    ∧ dget (hget (apply_behavior_updates s p br).1
          ((tget (apply_behavior_updates s p br).2 "behavior").getD 0))
        "_user_type" = some (.vstr br.user_type)
    ∧ dget (hget (apply_behavior_updates s p br).1
          ((tget (apply_behavior_updates s p br).2 "behavior").getD 0))
        "_last_analysis" = some (.vstr br.session_summary) :=
  ⟨apply_behavior_updates_writes s p br us u hus hc hf hv h1 h2 h3,
   apply_behavior_updates_aggregates s p br⟩

/-- C2 witness: the update `{field: "behavior.reading_speed", value: "fast",
confidence: 0.9}` overwrites a prior entry stored with confidence 0.99, and
the aggregate keys hold the result's metrics. -/
theorem apply_behavior_updates_unconditional_witness :
    dget (hget (apply_behavior_updates c2_state c2_profile c2_result).1
          ((tget (apply_behavior_updates c2_state c2_profile c2_result).2
            "behavior").getD 0))
        "reading_speed"
      = some (behaviorRecord (.vstr "fast") 0.9)
    ∧ dget (hget (apply_behavior_updates c2_state c2_profile c2_result).1
          ((tget (apply_behavior_updates c2_state c2_profile c2_result).2
            "behavior").getD 0))
        "_engagement_score" = some (.vnum 0.7)
    ∧ dget (hget (apply_behavior_updates c2_state c2_profile c2_result).1
          ((tget (apply_behavior_updates c2_state c2_profile c2_result).2
            "behavior").getD 0))
        "_user_type" = some (.vstr "explorer")
    ∧ dget (hget (apply_behavior_updates c2_state c2_profile c2_result).1
          ((tget (apply_behavior_updates c2_state c2_profile c2_result).2
            "behavior").getD 0))
        "_last_analysis" = some (.vstr "active session") :=
  apply_behavior_updates_unconditional c2_state c2_profile c2_result [] c2_update
    rfl (by norm_num [c2_update, Option.getD_some]) (by decide) rfl
    (by decide) (by decide) (by decide)

/-- C10: a behavior update dict with no `confidence` key is treated as having
confidence 0.5, which clears the ≥ 0.5 threshold: it is written into the
behavior category with confidence 0.5 rather than skipped. -/
theorem apply_behavior_updates_default_confidence (s : PState) (p : TopDict)
    (br : BehaviorAnalysisResult) (u : BUpdate)
    (hus : br.profile_updates = [u])
    (hc0 : u.confidence = none)
    (hf : stripBehaviorTag u.field ≠ "")
    (hv : u.value.isNone = false)
    (h1 : stripBehaviorTag u.field ≠ "_engagement_score")
    (h2 : stripBehaviorTag u.field ≠ "_user_type")
    (h3 : stripBehaviorTag u.field ≠ "_last_analysis") :
    dget (hget (apply_behavior_updates s p br).1
          ((tget (apply_behavior_updates s p br).2 "behavior").getD 0))
        (stripBehaviorTag u.field)
      = some (behaviorRecord u.value 0.5) := by
  have h := apply_behavior_updates_writes s p br [] u (by simpa using hus)
    (by rw [hc0]; norm_num [Option.getD_none]) hf hv h1 h2 h3
  rw [hc0] at h
  exact h

/-- C10 witness: `{field: "scroll_pattern", value: "thorough"}` — no
confidence key — lands in the behavior category with confidence 0.5. -/
theorem apply_behavior_updates_default_confidence_witness :
    dget (hget (apply_behavior_updates c10_state [] c10_result).1
          ((tget (apply_behavior_updates c10_state [] c10_result).2
            "behavior").getD 0))
        "scroll_pattern"
      = some (behaviorRecord (.vstr "thorough") 0.5) :=
  apply_behavior_updates_default_confidence c10_state [] c10_result c10_update
    rfl rfl (by decide) rfl (by decide) (by decide) (by decide)

/-- C5: for the same inputs and the same (pure) analyzer outputs, sequential
mode produces exactly the `OrchestratorResult` of parallel mode: both invoke
the same analyzer calls with the same arguments (behavior only when the
behavior data is truthy) and apply the same merge. -/
theorem process_modes_agree {R : Type} (ag : Analyzers R) (s : PState)
    (query : String) (up : Option TopDict) (hist : Option (List Entries))
    (bd : Option Entries) :
    process_sequential ag s query up hist bd
      = process_parallel ag s query up hist bd := by
  cases hb : optDictTruthy bd <;>
    simp [process_sequential, process_parallel, hb]

/-- The frontend behavior-update loop is pointwise prefixing: folding over
the stored updates appends the prefixed dicts to both accumulators. -/
theorem frontend_loop_eq (us : List BUpdate) (l : List BUpdate)
    (al : List (ProfileUpdate ⊕ BUpdate)) :
    us.foldl (fun acc u =>
        let u2 := prefixOneBehaviorUpdate u
        (acc.1 ++ [u2], acc.2 ++ [Sum.inr u2])) (l, al)
      = (l ++ us.map prefixOneBehaviorUpdate,
         al ++ (us.map prefixOneBehaviorUpdate).map Sum.inr) := by
  induction us generalizing l al with
  | nil => simp
  | cons u t ih => simp [List.foldl_cons, ih]

/-- C6 (amended): `to_frontend_response` prefixes the stored behavior update
dicts *in place*: after the call the stored `profile_updates` list of the
behavior result holds the prefixed dicts (the same objects appended to the
frontend update list), not an untouched copy. -/
theorem to_frontend_response_state (pa : ProfileAnalysisResult)
    (ba : BehaviorAnalysisResult) :
    (to_frontend_response pa (some ba)).behavior_updates_after
        = some (ba.profile_updates.map prefixOneBehaviorUpdate)
    ∧ (to_frontend_response pa (some ba)).all_updates
        = pa.updates.map Sum.inl
            ++ (ba.profile_updates.map prefixOneBehaviorUpdate).map Sum.inr := by
  constructor <;> simp [to_frontend_response, frontend_loop_eq]

/-- C6 counterexample: a stored update dict with field `"x"` reads back with
field `"behavior.x"` after `to_frontend_response` — the stored
`BehaviorAnalysisResult.profile_updates` is not left unchanged. -/
theorem to_frontend_response_mutates_stored :
    (to_frontend_response c6_profile_analysis
        (some c6_behavior_analysis)).behavior_updates_after
      ≠ some c6_behavior_analysis.profile_updates := by
  intro h
  have h2 := congrArg (fun o => (Option.getD o []).map BUpdate.field) h
  exact absurd h2 (by decide)

/-- C7 (amended): on the zone fallback path every pinned item's identifier
(url, else id, else title) appears in `pinned_content_included`, confidence
is 0.3, personalization is off and the reasoning names the fallback; the
1:1 card mapping exists *only* when the effective component type is `bento`
(the default) — for any other requested type the components list is empty. -/
theorem fallback_render_spec (pinned : List Entries) (pt : Option String)
    (item : Entries) (hitem : item ∈ pinned) :
    fallbackIdentifier item ∈ (fallback_render pinned pt).pinned_content_included
    ∧ (fallback_render pinned pt).confidence = 0.3
    ∧ (fallback_render pinned pt).personalization_applied = false
    ∧ (fallback_render pinned pt).reasoning
        = "Fallback render with only pinned content due to processing error"
    ∧ (effectiveComponentType pt = "bento" →
        (fallback_render pinned pt).components
          = [.vdict [("type", .vstr "bento"),
                     ("data", .vdict [("cards", .vlist (pinned.map fallbackCard)),
                                      ("columns", .vnum (min (pinned.length : ℚ) 3))])]])
    ∧ (effectiveComponentType pt ≠ "bento" →
        (fallback_render pinned pt).components = []) := by
  have hne : pinned ≠ [] := by
    intro hcon
    rw [hcon] at hitem
    exact List.not_mem_nil item hitem
  refine ⟨?_, rfl, rfl, rfl, ?_, ?_⟩
  · exact List.mem_map_of_mem fallbackIdentifier hitem
  · intro hb
    have hemp : (pinned.map fallbackCard).isEmpty = false := by
      cases pinned with
      | nil => exact absurd rfl hne
      | cons a t => rfl
    simp [fallback_render, hb, hemp, List.length_map]
  · intro hb
    simp [fallback_render, hb]

/-- C7 counterexample: with `preferred_component_type = "chart"` and one
pinned item the fallback emits **no** component at all — the pinned item is
not mapped 1:1 into a card of the requested type (though its identifier is
still listed). -/
theorem fallback_render_no_chart_cards :
    (fallback_render [[("id", PyVal.vstr "a")]] (some "chart")).components = []
    ∧ (fallback_render [[("id", PyVal.vstr "a")]]
        (some "chart")).pinned_content_included = [PyVal.vstr "a"] :=
  ⟨rfl, rfl⟩

/-- C7 witness: for pinned content `[{id: "a"}, {url: "http://x"}]` the
identifier `"http://x"` of the second item appears in
`pinned_content_included`. -/
theorem fallback_render_spec_witness :
    fallbackIdentifier [("url", PyVal.vstr "http://x")]
      ∈ (fallback_render c7_pinned none).pinned_content_included :=
  (fallback_render_spec c7_pinned none [("url", PyVal.vstr "http://x")]
    (List.mem_cons_of_mem _ (List.mem_cons_self _ _))).1

/-- C8 counterexample: for `{duration: 150000, clickCount: 8,
maxScrollDepth: 85, pagesVisited: 1}` the heuristic engagement score is not
1.0 — only four of the five thresholds are met (1 page is not > 2). -/
theorem quick_analyze_engagement_not_one :
    (quick_analyze c8_behavior_summary).engagement_score ≠ 1 := by
  norm_num [quick_analyze,
    (show numGet c8_behavior_summary "duration" = 150000 from rfl),
    (show numGet c8_behavior_summary "clickCount" = 8 from rfl),
    (show numGet c8_behavior_summary "maxScrollDepth" = 85 from rfl),
    (show numGet c8_behavior_summary "pagesVisited" = 1 from rfl),
    (show dget c8_behavior_summary "heatmapZones" = none from rfl)]

/-- C8 (amended): for `{duration: 150000, clickCount: 8, maxScrollDepth: 85,
pagesVisited: 1}` the heuristic fallback returns engagement 0.8 (four 0.2
increments: duration > 30s, duration > 120s, clicks > 5, scroll > 50; pages
is not > 2) and user type `deep_reader`. -/
theorem quick_analyze_scenario :
    (quick_analyze c8_behavior_summary).engagement_score = 0.8
    ∧ (quick_analyze c8_behavior_summary).user_type = "deep_reader" := by
  constructor <;>
    norm_num [quick_analyze,
      (show numGet c8_behavior_summary "duration" = 150000 from rfl),
      (show numGet c8_behavior_summary "clickCount" = 8 from rfl),
      (show numGet c8_behavior_summary "maxScrollDepth" = 85 from rfl),
      (show numGet c8_behavior_summary "pagesVisited" = 1 from rfl),
      (show dget c8_behavior_summary "heatmapZones" = none from rfl)]

/-- C9: in the profile analysis post-processing, every surviving update has
confidence ≥ 0.5, and `has_profile_info` holds iff the model asserted it
**and** at least one update survived the filter. -/
theorem analyze_message_filter (parsed : ParsedAnalysis) (message now : String) :
    (∀ u ∈ (analyze_message_result parsed message now).updates, u.confidence ≥ 0.5)
    ∧ ((analyze_message_result parsed message now).has_profile_info = true
        ↔ (parsed.has_profile_info = true
            ∧ (analyze_message_result parsed message now).updates ≠ [])) := by
  constructor
  · intro u hu
    simp only [analyze_message_result] at hu
    rw [List.mem_map] at hu
    obtain ⟨pu, hmem, rfl⟩ := hu
    rw [List.mem_filter] at hmem
    have h2 := hmem.2
    rw [decide_eq_true_eq] at h2
    cases hcq : pu.confidence with
    | none =>
      rw [hcq] at h2
      norm_num at h2
    | some cq =>
      rw [hcq] at h2
      simp only [Option.getD_some] at h2
      simpa [hcq] using h2
  · simp only [analyze_message_result, Bool.and_eq_true, decide_eq_true_eq]
    constructor
    · rintro ⟨ha, hb⟩
      exact ⟨ha, List.ne_nil_of_length_pos hb⟩
    · rintro ⟨ha, hb⟩
      exact ⟨ha, List.length_pos.mpr hb⟩

end GenUI
